import Mathlib

/-!
Verification development for `fretboard_trainer.py` (guitar fretboard trainer).

The Python program is a single-threaded CLI loop.  We shallowly embed its
pure core: the constant tables, the prompt chooser (with Python truthiness
made explicit, and `random.choice` modelled by an oracle index), the
period / beat-deadline arithmetic over exact rationals, and the two timed
run loops (`run_auto`, `run_preset`) as deterministic step machines that
emit one event per quarter sub-beat.  Startup file checks and the
`parse_args` conflict scan are modelled as pure functions of a file-system
predicate and the argv token list.
-/

namespace FretboardTrainer

/-- `STRINGS` (fretboard_trainer.py line 44). -/
def STRINGS : List Int := [1, 2, 3, 4, 5, 6]

/-- `NOTES` — chromatic pool (line 45). -/
def NOTES : List String :=
  ["C", "C#", "D", "D#", "E", "F"] ++ ["F#", "G", "G#", "A", "A#", "B"]

/-- `NOTES_NATURAL` — natural pool (line 46). -/
def NOTES_NATURAL : List String := ["C", "D", "E", "F", "G", "A", "B"]

/-- `DEFAULT_BPM` (line 48). -/
def DEFAULT_BPM : Int := 180

/-- `DOWNBEAT_PATH` (line 50). -/
def DOWNBEAT_PATH : String := "Perc_MetronomeQuartz_hi.wav"

/-- `SECONDARY_BEAT_PATH` (line 55). -/
def SECONDARY_BEAT_PATH : String := "Perc_MetronomeQuartz_lo.wav"

/-- The parsed argparse namespace (`parse_args`, lines 61-97).  `auto` and
`preset` carry the optional BPM (`none` = flag absent), `string` and `note`
are the optional filters, `accidentals` is the store-true flag. -/
structure Args where
  auto : Option Int
  accidentals : Bool
  string : Option Int
  note : Option String
  preset : Option Int
deriving DecidableEq

/-- `build_note_pool` (lines 104-107).  Python's `if args.note:` is a
truthiness test: both `None` and the empty string fall through to the
accidentals-selected pool. -/
def build_note_pool (args : Args) : List String :=
  match args.note with
  | some n =>
      if n ≠ "" then [n]
      else if args.accidentals then NOTES else NOTES_NATURAL
  | none => if args.accidentals then NOTES else NOTES_NATURAL

/-- `random.choice l`, modelled by an oracle index `r` reduced modulo the
list length (every element is reachable; the default is never hit on the
nonempty lists the program uses). -/
def randChoice {α : Type} [Inhabited α] (l : List α) (r : Nat) : α :=
  l.getD (r % l.length) default

/-- `choose_prompt` (lines 110-114).  `args.string or random.choice(STRINGS)`
is Python `or`: `None` and `0` are falsy and fall back to the random draw;
any other integer is returned unvalidated.  `randS`, `randN` are the oracle
indices for the two `random.choice` calls. -/
def choose_prompt (args : Args) (randS randN : Nat) : Int × String :=
  let s : Int :=
    match args.string with
    | some v => if v = 0 then randChoice STRINGS randS else v
    | none => randChoice STRINGS randS
  let note_pool := build_note_pool args
  let n := randChoice note_pool randN
  (s, n)

/-- The period computation shared by `run_auto` (lines 154-156) and
`run_preset` (lines 190-192): `period = max(0.001, 60.0 / tempo)`.
Python raises `ZeroDivisionError` on tempo 0, modelled as `none`; the
arithmetic is embedded over exact rationals. -/
def periodOf (tempo : Int) : Option ℚ :=
  if tempo = 0 then none
  else some (max (1 / 1000 : ℚ) (60 / (tempo : ℚ)))

/-- The beat deadline `target = start + beat_idx * period`
(line 163 / line 204). -/
def deadline (start period : ℚ) (beatIdx : Nat) : ℚ :=
  start + beatIdx * period

/-- Which click sample a sub-beat plays. -/
inductive Sound where
  | downbeat
  | secondary
deriving DecidableEq

/-- What one iteration of the inner loop shows and plays: the sound
chosen by `if j == 0`, the `beat=j` argument of `visual`, and the
displayed string / note pair. -/
structure BeatEvent where
  sound : Sound
  beat : Nat
  string : Int
  note : String
deriving DecidableEq

/-- Loop state of `run_auto` (lines 154-187): `beat_idx`, the inner
counter `j` of `for j in range(4)`, and the current prompt `(s, n)`
(set on each downbeat, reused on sub-beats 1-3). -/
structure AutoState where
  beatIdx : Nat
  j : Nat
  cur : Int × String
deriving DecidableEq

/-- State before the first sub-beat of `run_auto`: `beat_idx = 0`, first
inner iteration `j = 0`; `(s, n)` are still unbound in Python and are
assigned before first use (the first sub-beat has `j = 0`), so the dummy
initial value is never displayed. -/
def autoInit : AutoState := ⟨0, 0, (0, "")⟩

/-- One sub-beat of `run_auto`'s loop body (lines 162-187), after the
waiting: on `j == 0` re-pick the prompt and play the downbeat, otherwise
play the secondary click; display `(j, s, n)`; increment `beat_idx`.
`oracle` supplies the `random.choice` indices for the `choose_prompt`
call made at beat `beat_idx`. -/
def autoTick (args : Args) (oracle : Nat → Nat × Nat) (s : AutoState) :
    AutoState × BeatEvent :=
  let cur :=
    if s.j = 0 then
      choose_prompt args (oracle s.beatIdx).1 (oracle s.beatIdx).2
    else s.cur
  let sound := if s.j = 0 then Sound.downbeat else Sound.secondary
  (⟨s.beatIdx + 1, (s.j + 1) % 4, cur⟩, ⟨sound, s.j, cur.1, cur.2⟩)

/-- `run_auto` state after `n` sub-beats. -/
def autoStateAt (args : Args) (oracle : Nat → Nat × Nat) : Nat → AutoState
  | 0 => autoInit
  | n + 1 => (autoTick args oracle (autoStateAt args oracle n)).1

/-- The event `run_auto` emits at sub-beat `n` (0-based). -/
def autoEventAt (args : Args) (oracle : Nat → Nat × Nat) (n : Nat) :
    BeatEvent :=
  (autoTick args oracle (autoStateAt args oracle n)).2

/-- Loop state of `run_preset` (lines 190-233): `beat_idx`, the string
counter `i` of `for i in range(1, 7)`, the inner counter `j` of
`for j in range(4)`, and the natural-note `index`. -/
structure PresetState where
  beatIdx : Nat
  i : Nat
  j : Nat
  index : Nat
deriving DecidableEq

/-- State before the first sub-beat of `run_preset`: `beat_idx = 0`,
string `i = 1`, sub-beat `j = 0`, `index = 3` (line 197). -/
def presetInit : PresetState := ⟨0, 1, 0, 3⟩

/-- One sub-beat of `run_preset`'s loop body (lines 200-233): play the
downbeat on `j == 0` and the secondary click otherwise, display
`(j, i, NOTES_NATURAL[index])`, increment `beat_idx`; then advance the
loop counters — next `j`, or next string, or (after string 6, sub-beat 3)
wrap to string 1 and step `index = (index + 4) % len(NOTES_NATURAL)`
(line 232). -/
def presetTick (s : PresetState) : PresetState × BeatEvent :=
  let ev : BeatEvent :=
    ⟨if s.j = 0 then Sound.downbeat else Sound.secondary, s.j,
      (s.i : Int), NOTES_NATURAL.getD s.index ""⟩
  let s' : PresetState :=
    if s.j + 1 < 4 then ⟨s.beatIdx + 1, s.i, s.j + 1, s.index⟩
    else if s.i + 1 ≤ 6 then ⟨s.beatIdx + 1, s.i + 1, 0, s.index⟩
    else ⟨s.beatIdx + 1, 1, 0, (s.index + 4) % NOTES_NATURAL.length⟩
  (s', ev)

/-- `run_preset` state after `n` sub-beats. -/
def presetStateAt : Nat → PresetState
  | 0 => presetInit
  | n + 1 => (presetTick (presetStateAt n)).1

/-- The event `run_preset` emits at sub-beat `n` (0-based). -/
def presetEventAt (n : Nat) : BeatEvent :=
  (presetTick (presetStateAt n)).2

/-- `conflicting_flags` of `parse_args` (line 91). -/
def conflicting_flags : List String :=
  ["--auto", "--accidentals", "--string", "--note"]

/-- `used_conflicts` (line 92): the argv tokens that are *exactly* one of
the conflicting flag spellings. -/
def used_conflicts (argv : List String) : List String :=
  argv.filter (fun tok => conflicting_flags.contains tok)

/-- Whether argv supplies `--preset` (standalone, `--preset=N`; argparse
also accepts `--preset N`, whose flag token is the standalone form). -/
def presetGiven (argv : List String) : Bool :=
  argv.any (fun tok => tok == "--preset" || tok.startsWith "--preset=")

/-- Whether argv supplies `--auto` in one of its spellings. -/
def autoGiven (argv : List String) : Bool :=
  argv.any (fun tok => tok == "--auto" || tok.startsWith "--auto=")

/-- The mutual-exclusion check of `parse_args` (lines 90-95): it calls
`p.error` (usage error, exit code 2) exactly when `--preset` was given
and `used_conflicts` is nonempty. -/
def parse_args_rejects (argv : List String) : Bool :=
  presetGiven argv && !(used_conflicts argv).isEmpty

/-- The usage-error message of line 95. -/
def conflictMessage (argv : List String) : String :=
  "--preset cannot be combined with: " ++
    String.intercalate ", " (used_conflicts argv)

/-- The run mode `main` dispatches to (lines 269-274). -/
inductive Mode where
  | manual
  | auto
  | preset
deriving DecidableEq

/-- How a program start resolves: an early `sys.exit` / usage error with
its code and message, or entry into a run mode. -/
inductive StartOutcome where
  | exited (code : Nat) (message : String)
  | running (mode : Mode)
deriving DecidableEq

/-- Program start: the module-level asset checks (lines 50-58) run when
the module loads, before `main` and hence before `parse_args`; then the
`parse_args` mutual-exclusion check; then `main`'s dispatch on
`args.preset` / `args.auto` (lines 269-274).  `fileExists` is the
file-system predicate `os.path.exists`. -/
def programStart (fileExists : String → Bool) (argv : List String) :
    StartOutcome :=
  if !(fileExists DOWNBEAT_PATH) then
    .exited 1 ("File not found: " ++ DOWNBEAT_PATH)
  else if !(fileExists SECONDARY_BEAT_PATH) then
    .exited 1 ("File not found: " ++ SECONDARY_BEAT_PATH)
  else if parse_args_rejects argv then
    .exited 2 (conflictMessage argv)
  else
    .running
      (if presetGiven argv then .preset
       else if autoGiven argv then .auto
       else .manual)

theorem NOTES_NATURAL_length : NOTES_NATURAL.length = 7 := rfl

/-- Closed form of the `run_preset` loop state: at sub-beat `n`,
`beat_idx = n`, the string is `n / 4 % 6 + 1`, the inner counter is
`n % 4`, and the note index is `(3 + 4 * (n / 24)) % 7`. -/
theorem presetStateAt_closed (n : Nat) :
    presetStateAt n = ⟨n, n / 4 % 6 + 1, n % 4, (3 + 4 * (n / 24)) % 7⟩ := by
  induction n with
  | zero => rfl
  | succ n ih =>
    rw [presetStateAt, ih]
    unfold presetTick
    dsimp only
    simp only [NOTES_NATURAL_length]
    by_cases h4 : n % 4 + 1 < 4
    · rw [if_pos h4]
      simp only [PresetState.mk.injEq, eq_self_iff_true, true_and, and_true]
      omega
    · rw [if_neg h4]
      by_cases h6 : n / 4 % 6 + 1 + 1 ≤ 6
      · rw [if_pos h6]
        simp only [PresetState.mk.injEq, eq_self_iff_true, true_and, and_true]
        omega
      · rw [if_neg h6]
        simp only [PresetState.mk.injEq, eq_self_iff_true, true_and, and_true]
        omega

/-- Closed form of the `run_preset` event stream. -/
theorem presetEventAt_closed (n : Nat) :
    presetEventAt n =
      ⟨if n % 4 = 0 then Sound.downbeat else Sound.secondary, n % 4,
        ((n / 4 % 6 + 1 : Nat) : Int),
        NOTES_NATURAL.getD ((3 + 4 * (n / 24)) % 7) ""⟩ := by
  unfold presetEventAt
  rw [presetStateAt_closed]
  rfl

/-- Closed form of the `run_auto` loop state: at sub-beat `n`,
`beat_idx = n`, the inner counter is `n % 4`, and (once `n > 0`) the
current prompt is the one chosen at the last downbeat `4 * ((n-1) / 4)`. -/
theorem autoStateAt_closed (args : Args) (oracle : Nat → Nat × Nat)
    (n : Nat) :
    autoStateAt args oracle n =
      ⟨n, n % 4,
        if n = 0 then (0, "")
        else
          choose_prompt args (oracle (4 * ((n - 1) / 4))).1
            (oracle (4 * ((n - 1) / 4))).2⟩ := by
  induction n with
  | zero => rfl
  | succ n ih =>
    rw [autoStateAt, ih]
    unfold autoTick
    dsimp only
    simp only [Nat.succ_ne_zero, if_false, Nat.add_sub_cancel]
    by_cases h : n % 4 = 0
    · rw [if_pos h]
      have hn : 4 * (n / 4) = n := by omega
      rw [hn]
      simp only [AutoState.mk.injEq, eq_self_iff_true, true_and, and_true]
      omega
    · rw [if_neg h]
      have hn0 : ¬ n = 0 := by omega
      rw [if_neg hn0]
      have hd : (n - 1) / 4 = n / 4 := by omega
      rw [hd]
      simp only [AutoState.mk.injEq, eq_self_iff_true, true_and, and_true]
      omega

/-- Closed form of the `run_auto` event stream: sub-beat `n` shows the
prompt chosen at the downbeat opening its group of four. -/
theorem autoEventAt_closed (args : Args) (oracle : Nat → Nat × Nat)
    (n : Nat) :
    autoEventAt args oracle n =
      ⟨if n % 4 = 0 then Sound.downbeat else Sound.secondary, n % 4,
        (choose_prompt args (oracle (4 * (n / 4))).1
          (oracle (4 * (n / 4))).2).1,
        (choose_prompt args (oracle (4 * (n / 4))).1
          (oracle (4 * (n / 4))).2).2⟩ := by
  unfold autoEventAt
  rw [autoStateAt_closed]
  unfold autoTick
  dsimp only
  by_cases h : n % 4 = 0
  · have hn : 4 * (n / 4) = n := by omega
    simp only [if_pos h, hn]
  · have hn0 : ¬ n = 0 := by omega
    have hd : (n - 1) / 4 = n / 4 := by omega
    simp only [if_neg h, if_neg hn0, hd]

/-- Helper: the random string draw always lands in `STRINGS`. -/
theorem randChoice_STRINGS_mem (r : Nat) : randChoice STRINGS r ∈ STRINGS := by
  unfold randChoice
  have h : r % STRINGS.length < STRINGS.length := Nat.mod_lt _ (by decide)
  rw [List.getD_eq_getElem _ _ h]
  exact List.getElem_mem h

/-- C4 (counterexample): with the note filter set to the empty string
(`--note=`), `args.note` is falsy in Python, `build_note_pool` falls back
to the natural pool, and the chosen note is "C" ≠ "" — so not every
supplied note filter N forces `Prompt.note = N`. -/
theorem C4_note_filter_cex :
    (choose_prompt ⟨none, false, none, some "", none⟩ 0 0).2 = "C" ∧
      ("C" : String) ≠ "" := by
  constructor
  · rfl
  · decide

/-- C4 (amended): for every *nonempty* note filter N supplied via
`--note`, every prompt produced by `choose_prompt` has note equal to N,
regardless of the accidentals flag (and of every other field of `args`
and of the random draws). -/
theorem C4_note_filter_forces_note (args : Args) (N : String)
    (hN : args.note = some N) (hne : N ≠ "") (randS randN : Nat) :
    (choose_prompt args randS randN).2 = N := by
  simp [choose_prompt, build_note_pool, randChoice, hN, hne, Nat.mod_one]

/-- Witness for `C4_note_filter_forces_note` at a concrete input. -/
theorem C4_note_filter_forces_note_witness :
    (choose_prompt ⟨none, true, none, some "F#", none⟩ 2 11).2 = "F#" :=
  C4_note_filter_forces_note ⟨none, true, none, some "F#", none⟩ "F#" rfl
    (by decide) 2 11

/-- C5: for every string filter S in {1..6} supplied via `--string`,
every prompt produced by `choose_prompt` has string equal to S. -/
theorem C5_string_filter_forces_string (args : Args) (S : Int)
    (hS : args.string = some S) (h1 : 1 ≤ S) (h6 : S ≤ 6)
    (randS randN : Nat) :
    (choose_prompt args randS randN).1 = S := by
  have h0 : ¬ S = 0 := by omega
  simp [choose_prompt, hS, h0]

/-- Witness for `C5_string_filter_forces_string` at a concrete input. -/
theorem C5_string_filter_forces_string_witness :
    (choose_prompt ⟨some 120, false, some 3, none, none⟩ 5 9).1 = 3 :=
  C5_string_filter_forces_string ⟨some 120, false, some 3, none, none⟩ 3 rfl
    (by decide) (by decide) 5 9

/-- C9: `args.string or random.choice(STRINGS)` treats 0 as falsy — a
string filter of 0 yields the random draw from {1..6} instead of 0 —
while any nonzero filter (including out-of-range values such as 7 or -2)
is returned unvalidated as the prompt's string. -/
theorem C9_string_zero_falls_back (args argsNZ : Args) (s : Int)
    (h0 : args.string = some 0) (hs : argsNZ.string = some s)
    (hne : s ≠ 0) (randS randN : Nat) :
    (choose_prompt args randS randN).1 = randChoice STRINGS randS
    ∧ (choose_prompt args randS randN).1 ∈ STRINGS
    ∧ (choose_prompt argsNZ randS randN).1 = s := by
  have e1 : (choose_prompt args randS randN).1 = randChoice STRINGS randS := by
    simp [choose_prompt, h0]
  refine ⟨e1, ?_, ?_⟩
  · rw [e1]
    exact randChoice_STRINGS_mem randS
  · simp [choose_prompt, hs, hne]

/-- Witness for `C9_string_zero_falls_back`: filter 0 falls back to the
draw (index 2 picks string 3), filter 7 is passed through unvalidated. -/
theorem C9_string_zero_falls_back_witness :
    (choose_prompt ⟨none, false, some 0, none, none⟩ 2 0).1 =
        randChoice STRINGS 2
    ∧ (choose_prompt ⟨none, false, some 0, none, none⟩ 2 0).1 ∈ STRINGS
    ∧ (choose_prompt ⟨none, false, some 7, none, none⟩ 2 0).1 = 7 :=
  C9_string_zero_falls_back ⟨none, false, some 0, none, none⟩
    ⟨none, false, some 7, none, none⟩ 7 rfl rfl (by decide) 2 0

/-- C6 (counterexample): the period is clamped, `max(0.001, 60/BPM)`, so
for BPM = 100000 the computed period is 1/1000 second, not the claimed
60/BPM = 3/5000 second. -/
theorem C6_period_clamp_cex :
    periodOf 100000 = some (1 / 1000)
    ∧ (60 / ((100000 : Int) : ℚ)) ≠ 1 / 1000 := by
  constructor
  · unfold periodOf
    norm_num
  · norm_num

/-- C6 (amended): for every positive BPM with 60/BPM ≥ 0.001 (that is,
BPM ≤ 60000 — every realistic tempo), the scheduler's period equals
exactly 60/BPM seconds per quarter-beat; in particular 1/3 second for
BPM = 180 and 1 second for BPM = 60. -/
theorem C6_period_formula (bpm : Int) (h1 : 0 < bpm) (h2 : bpm ≤ 60000) :
    periodOf bpm = some (60 / (bpm : ℚ))
    ∧ periodOf 180 = some (1 / 3)
    ∧ periodOf 60 = some 1 := by
  refine ⟨?_, ?_, ?_⟩
  · unfold periodOf
    rw [if_neg (by omega)]
    congr 1
    apply max_eq_right
    rw [div_le_div_iff₀ (by norm_num) (by exact_mod_cast h1)]
    have hc : (bpm : ℚ) ≤ 60000 := by exact_mod_cast h2
    linarith
  · unfold periodOf
    norm_num
  · unfold periodOf
    norm_num

/-- Witness for `C6_period_formula` at BPM = 180. -/
theorem C6_period_formula_witness :
    periodOf 180 = some (60 / ((180 : Int) : ℚ))
    ∧ periodOf 180 = some (1 / 3)
    ∧ periodOf 60 = some 1 :=
  C6_period_formula 180 (by decide) (by decide)

/-- C10: `60.0 / tempo` has no zero guard — tempo 0 raises an uncaught
`ZeroDivisionError` (modelled as `none`) — and for every nonzero tempo
the division succeeds and the clamp `max(0.001, 60/tempo)` makes the
period at least 0.001 seconds, hence positive even for negative tempos. -/
theorem C10_period_safety (tempo : Int) (h : tempo ≠ 0) :
    periodOf 0 = none
    ∧ ∃ p : ℚ, periodOf tempo = some p ∧ 1 / 1000 ≤ p ∧ 0 < p := by
  refine ⟨by unfold periodOf; norm_num, ?_⟩
  refine ⟨max (1 / 1000 : ℚ) (60 / (tempo : ℚ)), ?_, le_max_left _ _, ?_⟩
  · unfold periodOf
    rw [if_neg h]
  · exact lt_of_lt_of_le (by norm_num) (le_max_left _ _)

/-- Witness for `C10_period_safety` at the negative tempo -2. -/
theorem C10_period_safety_witness :
    periodOf 0 = none
    ∧ ∃ p : ℚ, periodOf (-2) = some p ∧ 1 / 1000 ≤ p ∧ 0 < p :=
  C10_period_safety (-2) (by decide)

/-- C2 (code evidence): the `parse_args` conflict scan compares argv
tokens for exact equality with the flag spellings, so the accepted forms
`--string=3` and `--auto=120` escape it — `--preset --string=3` produces
no usage error and preset mode starts — while the space-separated form
`--preset --string 3` is caught. -/
theorem C2_conflict_scan_escape :
    used_conflicts ["--preset", "--string=3"] = []
    ∧ parse_args_rejects ["--preset", "--string=3"] = false
    ∧ programStart (fun _ => true) ["--preset", "--string=3"] =
        .running Mode.preset
    ∧ parse_args_rejects ["--preset", "--string", "3"] = true
    ∧ parse_args_rejects ["--preset", "--auto=120"] = false := by
  refine ⟨by decide, by decide, ?_, by decide, by decide⟩
  decide

/-- C8: if a required audio asset is missing, the module-level check
exits with code 1 and the "File not found" diagnostic before `parse_args`
runs (the outcome is independent of argv) and no run mode is entered. -/
theorem C8_missing_audio_exits (fs : String → Bool)
    (argv argv' : List String)
    (h : fs DOWNBEAT_PATH = false ∨ fs SECONDARY_BEAT_PATH = false) :
    (∃ path, (path = DOWNBEAT_PATH ∨ path = SECONDARY_BEAT_PATH)
      ∧ fs path = false
      ∧ programStart fs argv = .exited 1 ("File not found: " ++ path))
    ∧ programStart fs argv = programStart fs argv'
    ∧ ∀ m, programStart fs argv ≠ .running m := by
  by_cases hd : fs DOWNBEAT_PATH = false
  · refine ⟨⟨DOWNBEAT_PATH, Or.inl rfl, hd, ?_⟩, ?_, ?_⟩
    · unfold programStart
      rw [hd]
      rfl
    · unfold programStart
      rw [hd]
      rfl
    · intro m
      unfold programStart
      rw [hd]
      simp
  · simp only [Bool.not_eq_false] at hd
    have hs : fs SECONDARY_BEAT_PATH = false := by
      rcases h with h | h
      · rw [hd] at h
        exact absurd h (by decide)
      · exact h
    have hd' : fs DOWNBEAT_PATH = true := hd
    refine ⟨⟨SECONDARY_BEAT_PATH, Or.inr rfl, hs, ?_⟩, ?_, ?_⟩
    · unfold programStart
      rw [hd', hs]
      rfl
    · unfold programStart
      rw [hd', hs]
      rfl
    · intro m
      unfold programStart
      rw [hd', hs]
      simp

/-- Witness for `C8_missing_audio_exits`: no files exist, argv asks for
auto mode — the program still exits 1 with the downbeat diagnostic. -/
theorem C8_missing_audio_exits_witness :
    (∃ path, (path = DOWNBEAT_PATH ∨ path = SECONDARY_BEAT_PATH)
      ∧ (fun _ : String => false) path = false
      ∧ programStart (fun _ => false) ["--auto"] =
          .exited 1 ("File not found: " ++ path))
    ∧ programStart (fun _ => false) ["--auto"] =
        programStart (fun _ => false) []
    ∧ ∀ m, programStart (fun _ => false) ["--auto"] ≠ .running m :=
  C8_missing_audio_exits (fun _ => false) ["--auto"] [] (Or.inl rfl)

/-- C1: the preset sequence starts at natural index 3 ("F"); each
sub-beat's displayed string is `n / 4 % 6 + 1` (strings 1..6 in
increasing order, one 4-sub-beat group per string); after each full
24-sub-beat pass the note index advances by 4 mod 7, yielding the cycle
F, C, G, D, A, E, B, F with period 7 passes, forever. -/
theorem C1_preset_sequence :
    ((presetStateAt 0).index = 3 ∧ NOTES_NATURAL.getD 3 "" = "F")
    ∧ (∀ n : Nat, (presetEventAt n).string = ((n / 4 % 6 + 1 : Nat) : Int))
    ∧ (∀ n : Nat, (presetStateAt n).index = (3 + 4 * (n / 24)) % 7)
    ∧ (∀ g : Nat, (presetStateAt ((g + 1) * 24)).index
        = ((presetStateAt (g * 24)).index + 4) % 7)
    ∧ ((List.range 8).map (fun g => (presetEventAt (g * 24)).note)
        = ["F", "C", "G", "D", "A", "E", "B", "F"])
    ∧ (∀ g : Nat, (presetEventAt ((g + 7) * 24)).note
        = (presetEventAt (g * 24)).note) := by
  refine ⟨⟨rfl, rfl⟩, ?_, ?_, ?_, ?_, ?_⟩
  · intro n
    rw [presetEventAt_closed]
  · intro n
    rw [presetStateAt_closed]
  · intro g
    rw [presetStateAt_closed, presetStateAt_closed]
    have e1 : (g + 1) * 24 / 24 = g + 1 := by omega
    have e2 : g * 24 / 24 = g := by omega
    rw [e1, e2]
    dsimp only
    omega
  · decide
  · intro g
    rw [presetEventAt_closed, presetEventAt_closed]
    have e1 : (g + 7) * 24 / 24 = g + 7 := by omega
    have e2 : g * 24 / 24 = g := by omega
    rw [e1, e2]
    dsimp only
    congr 1
    omega

/-- C3: for every positive tempo, the period is defined; the deadline of
sub-beat `beat_idx` is `start + beat_idx * period`, `beat_idx` equals the
number of elapsed sub-beats in both run loops (starts at 0, +1 per
sub-beat), and the deadline sequence is strictly increasing.  In the
embedding the deadline is a function of `start`, `period`, `beat_idx`
only — it takes no clock input, there is no resynchronization. -/
theorem C3_beat_schedule (bpm : Int) (h : 0 < bpm) (start : ℚ) :
    ∃ p : ℚ, periodOf bpm = some p ∧ 0 < p
    ∧ (∀ m n : Nat, m < n → deadline start p m < deadline start p n)
    ∧ (∀ args oracle n, (autoStateAt args oracle n).beatIdx = n)
    ∧ (∀ n, (presetStateAt n).beatIdx = n) := by
  have hp : (0 : ℚ) < max (1 / 1000 : ℚ) (60 / (bpm : ℚ)) :=
    lt_of_lt_of_le (by norm_num) (le_max_left _ _)
  refine ⟨max (1 / 1000 : ℚ) (60 / (bpm : ℚ)), ?_, hp, ?_, ?_, ?_⟩
  · unfold periodOf
    rw [if_neg (by omega)]
  · intro m n hmn
    unfold deadline
    have hmn' : (m : ℚ) < n := by exact_mod_cast hmn
    exact add_lt_add_left (mul_lt_mul_of_pos_right hmn' hp) start
  · intro args oracle n
    rw [autoStateAt_closed]
  · intro n
    rw [presetStateAt_closed]

/-- Witness for `C3_beat_schedule` at BPM = 180, start = 0. -/
theorem C3_beat_schedule_witness :
    ∃ p : ℚ, periodOf 180 = some p ∧ 0 < p
    ∧ (∀ m n : Nat, m < n → deadline 0 p m < deadline 0 p n)
    ∧ (∀ args oracle n, (autoStateAt args oracle n).beatIdx = n)
    ∧ (∀ n, (presetStateAt n).beatIdx = n) :=
  C3_beat_schedule 180 (by decide) 0

/-- C7: in both timed loops, the sub-beat-0 event of every 4-sub-beat
cycle plays the downbeat sound and carries the freshly picked prompt
(auto) or the advanced preset string, while sub-beats 1-3 play the
secondary sound and display the same (string, note) pair as the downbeat
that opened their cycle. -/
theorem C7_subbeat_structure (args : Args) (oracle : Nat → Nat × Nat)
    (n g : Nat) :
    ((autoEventAt args oracle n).sound
        = if n % 4 = 0 then Sound.downbeat else Sound.secondary)
    ∧ ((presetEventAt n).sound
        = if n % 4 = 0 then Sound.downbeat else Sound.secondary)
    ∧ ((autoEventAt args oracle n).string
          = (autoEventAt args oracle (4 * (n / 4))).string
        ∧ (autoEventAt args oracle n).note
          = (autoEventAt args oracle (4 * (n / 4))).note)
    ∧ ((presetEventAt n).string = (presetEventAt (4 * (n / 4))).string
        ∧ (presetEventAt n).note = (presetEventAt (4 * (n / 4))).note)
    ∧ ((autoEventAt args oracle (4 * g)).string
          = (choose_prompt args (oracle (4 * g)).1 (oracle (4 * g)).2).1
        ∧ (autoEventAt args oracle (4 * g)).note
          = (choose_prompt args (oracle (4 * g)).1 (oracle (4 * g)).2).2)
    ∧ ((presetEventAt (4 * g)).string = ((g % 6 + 1 : Nat) : Int)) := by
  have e4 : 4 * (n / 4) / 4 = n / 4 := by omega
  have e24 : 4 * (n / 4) / 24 = n / 24 := by omega
  have eg : 4 * g / 4 = g := by omega
  refine ⟨?_, ?_, ?_, ?_, ?_, ?_⟩
  · rw [autoEventAt_closed]
  · rw [presetEventAt_closed]
  · rw [autoEventAt_closed, autoEventAt_closed, e4]
    exact ⟨rfl, rfl⟩
  · rw [presetEventAt_closed, presetEventAt_closed, e4, e24]
    exact ⟨rfl, rfl⟩
  · rw [autoEventAt_closed, eg]
    exact ⟨rfl, rfl⟩
  · rw [presetEventAt_closed, eg]

end FretboardTrainer
